import Mathlib

set_option maxRecDepth 8000

/-!
Shallow embedding of the flash-write layer of the Adafruit_nRF52_Bootloader
fork: `src/flash_nrf5x.c` (internal page cache and write router) and
`src/qspi_flash.c` / `src/qspi_flash.h` (external QSPI flash driver for the
W25Q16 chip, board `gat562_mesh_watch`).

Machine integers are modelled as `Nat`; all addresses and sizes occurring in
the driver are far below `2^32`, so C's `uint32_t` masks are modelled by the
equivalent truncating division/multiplication (noted at each use).  The
hardware primitives (`nrfx_qspi_*`, `nrfx_nvmc_*`) are external collaborators:
their success/failure outcomes and the chip's busy line are supplied by an
environment record, and the bus transfers they perform are recorded in an
event trace.
-/

/-- FLASH_PAGE_SIZE from flash_nrf5x.c. -/
def FLASH_PAGE_SIZE : Nat := 4096

/-- FLASH_CACHE_INVALID_ADDR from flash_nrf5x.c (0xffffffff sentinel). -/
def FLASH_CACHE_INVALID_ADDR : Nat := 4294967295

/-- W25Q16_SECTOR_SIZE from qspi_flash.h. -/
def W25Q16_SECTOR_SIZE : Nat := 4096

/-- W25Q16_BLOCK_SIZE_64KB from qspi_flash.h. -/
def W25Q16_BLOCK_SIZE_64KB : Nat := 65536

/-- QSPI_FLASH_SIZE from boards/gat562_mesh_watch/board.h (2 MB W25Q16). -/
def QSPI_FLASH_SIZE : Nat := 2097152

/-- Modelled from the spec: `CFG_UF2_QSPI_XIP_OFFSET` comes from
`usb/uf2/uf2cfg.h`, which is not under `src/`; the spec's build-time
configuration surface and `board.h` (`QSPI_XIP_OFFSET 0x100000`) fix the
external-flash XIP window to start at 0x100000. -/
def CFG_UF2_QSPI_XIP_OFFSET : Nat := 1048576

/-- Modelled from the spec: `CFG_UF2_QSPI_FLASH_SIZE` comes from
`usb/uf2/uf2cfg.h`, which is not under `src/`; the spec fixes the external
flash capacity to 2,097,152 bytes, matching `QSPI_FLASH_SIZE` in `board.h`. -/
def CFG_UF2_QSPI_FLASH_SIZE : Nat := 2097152

/-- Page-aligned address: translation of the C expression
`dst & ~(FLASH_PAGE_SIZE - 1)` on `uint32_t`; for `dst < 2^32` the mask
equals truncating division then multiplication by the page size. -/
def pageAlign (a : Nat) : Nat := a / FLASH_PAGE_SIZE * FLASH_PAGE_SIZE

/-- Sector-aligned address: translation of both C spellings,
`x & ~(W25Q16_SECTOR_SIZE - 1)` (flash_nrf5x.c line 107) and
`(address / W25Q16_SECTOR_SIZE) * W25Q16_SECTOR_SIZE` (qspi_flash.c
line 400), which agree on `uint32_t` values. -/
def sectorAlign (a : Nat) : Nat := a / W25Q16_SECTOR_SIZE * W25Q16_SECTOR_SIZE

/-- qspi_flash_status_t from qspi_flash.h. -/
inductive qspi_flash_status_t where
  | SUCCESS
  | BUSY
  | ERROR
  | TIMEOUT
deriving DecidableEq

/-- Shorthand matching the C enumerator name. -/
def QSPI_FLASH_STATUS_SUCCESS : qspi_flash_status_t := qspi_flash_status_t.SUCCESS

/-- Shorthand matching the C enumerator name. -/
def QSPI_FLASH_STATUS_ERROR : qspi_flash_status_t := qspi_flash_status_t.ERROR

/-- Shorthand matching the C enumerator name. -/
def QSPI_FLASH_STATUS_TIMEOUT : qspi_flash_status_t := qspi_flash_status_t.TIMEOUT

/-- Observable hardware operations issued by the two drivers.  Command
transfers that move no user data (write-enable, status-register reads and
writes) are not evented; their success or failure is supplied by `QspiEnv`.
An event is recorded exactly when the corresponding bus primitive accepts
the operation. -/
inductive FlashEvent where
  | pageErase (addr : Nat)
  | pageProgram (addr : Nat)
  | qspiErase4K (addr : Nat)
  | qspiErase64K (addr : Nat)
  | qspiEraseAll
  | qspiBusWrite (addr : Nat) (len : Nat)
  | qspiBusRead (addr : Nat) (len : Nat)
deriving DecidableEq

/-- Outcomes of the external hardware primitives (`nrfx_qspi_*`): each field
fixes the result of one kind of bus transaction, and `busy` is the stream of
values of the chip's busy bit as observed by successive polls within one
wait loop. -/
structure QspiEnv where
  nrfxInitOk : Bool
  busy : Nat → Bool
  cinstrWriteEnableOk : Bool
  cinstrReadStatus1Ok : Bool
  cinstrReadStatus2Ok : Bool
  status1 : Nat
  status2 : Nat
  cinstrWriteStatusOk : Bool
  readOk : Bool
  writeOk : Bool
  eraseOk : Bool

/-- qspi_flash_wait_ready from qspi_flash.c (lines 240-257): polls the busy
bit, decrementing a countdown of `timeout_ms` ticks, and returns TIMEOUT
when the countdown reaches zero.  `k` is the index of the next poll.  A call
with budget 0 loops in C without ever decrementing; it is modelled as `none`
(nontermination) when the first poll is busy — no call site in the driver
passes 0. -/
def qspi_flash_wait_ready (busy : Nat → Bool) : Nat → Nat → Option qspi_flash_status_t
  | k, 0 => if busy k then none else some qspi_flash_status_t.SUCCESS
  | k, 1 => if busy k then some qspi_flash_status_t.TIMEOUT else some qspi_flash_status_t.SUCCESS
  | k, t + 2 =>
    if busy k then qspi_flash_wait_ready busy (k + 1) (t + 1)
    else some qspi_flash_status_t.SUCCESS

/-- qspi_flash_write_enable from qspi_flash.c (lines 260-268). -/
def qspi_flash_write_enable (env : QspiEnv) : qspi_flash_status_t :=
  if env.cinstrWriteEnableOk then qspi_flash_status_t.SUCCESS
  else qspi_flash_status_t.ERROR

/-- qspi_flash_configure_quad_mode from qspi_flash.c (lines 271-321): reads
both status registers, returns SUCCESS if the quad-enable bit (bit 1 of
status register 2) is already set, otherwise issues write-enable, writes the
status registers with the bit set, and waits (budget 1000) for completion. -/
def qspi_flash_configure_quad_mode (env : QspiEnv) : Option qspi_flash_status_t :=
  if !env.cinstrReadStatus1Ok then some qspi_flash_status_t.ERROR
  else if !env.cinstrReadStatus2Ok then some qspi_flash_status_t.ERROR
  else if env.status2 &&& 2 != 0 then some qspi_flash_status_t.SUCCESS
  else if !env.cinstrWriteEnableOk then some qspi_flash_status_t.ERROR
  else if !env.cinstrWriteStatusOk then some qspi_flash_status_t.ERROR
  else
    match qspi_flash_wait_ready env.busy 0 1000 with
    | none => none
    | some s =>
      if s ≠ qspi_flash_status_t.SUCCESS then some s
      else some qspi_flash_status_t.SUCCESS

/-- qspi_flash_init from qspi_flash.c (lines 113-210).  The boolean argument
and result model `g_qspi_initialized`.  Pin/protocol configuration writes
only touch `g_qspi_config`, which no claim observes, and the void
`qspi_wait_ready()` (lines 101-109) is a bounded poll whose result is
discarded; neither has an observable effect in this model.  The quad-mode
configuration result is logged and otherwise ignored. -/
def qspi_flash_init (env : QspiEnv) (g_inited : Bool) :
    Option (qspi_flash_status_t × Bool) :=
  if g_inited then some (qspi_flash_status_t.SUCCESS, true)
  else if !env.nrfxInitOk then some (qspi_flash_status_t.ERROR, false)
  else
    match qspi_flash_configure_quad_mode env with
    | none => none
    | some _ => some (qspi_flash_status_t.SUCCESS, true)

/-- qspi_flash_deinit from qspi_flash.c (lines 213-219). -/
def qspi_flash_deinit (g_inited : Bool) : Bool :=
  if g_inited then false else g_inited

/-- qspi_flash_read from qspi_flash.c (lines 324-346).  `data = none` models
a NULL buffer; the transferred bytes are not modelled, only the transfer's
address and (possibly clamped) length, recorded as an event when the bus
read is accepted.  The range check `address + length > QSPI_FLASH_SIZE` is
computed in C on 32-bit operands (`uint32_t` plus 32-bit `size_t`), so the
sum wraps modulo 2^32; the model reproduces the wrap. -/
def qspi_flash_read (env : QspiEnv) (g_inited : Bool) (address : Nat)
    (data : Option (Nat → Nat)) (length : Nat) :
    qspi_flash_status_t × List FlashEvent :=
  if !g_inited || data.isNone || length == 0 then (qspi_flash_status_t.ERROR, [])
  else if QSPI_FLASH_SIZE ≤ address then (qspi_flash_status_t.ERROR, [])
  else
    let length :=
      if QSPI_FLASH_SIZE < (address + length) % 4294967296 then QSPI_FLASH_SIZE - address
      else length
    if env.readOk then (qspi_flash_status_t.SUCCESS, [FlashEvent.qspiBusRead address length])
    else (qspi_flash_status_t.ERROR, [])

/-- qspi_flash_write from qspi_flash.c (lines 349-390): parameter checks,
bounds clamp, wait (budget 1000), write-enable, bus write, wait
(budget 5000).  As in `qspi_flash_read`, the clamp condition's sum
`address + length` is a 32-bit addition in C and wraps modulo 2^32. -/
def qspi_flash_write (env : QspiEnv) (g_inited : Bool) (address : Nat)
    (data : Option (Nat → Nat)) (length : Nat) :
    Option (qspi_flash_status_t × List FlashEvent) :=
  if !g_inited || data.isNone || length == 0 then some (qspi_flash_status_t.ERROR, [])
  else if QSPI_FLASH_SIZE ≤ address then some (qspi_flash_status_t.ERROR, [])
  else
    let length :=
      if QSPI_FLASH_SIZE < (address + length) % 4294967296 then QSPI_FLASH_SIZE - address
      else length
    match qspi_flash_wait_ready env.busy 0 1000 with
    | none => none
    | some s1 =>
      if s1 ≠ qspi_flash_status_t.SUCCESS then some (s1, [])
      else if qspi_flash_write_enable env ≠ qspi_flash_status_t.SUCCESS then
        some (qspi_flash_status_t.ERROR, [])
      else if !env.writeOk then some (qspi_flash_status_t.ERROR, [])
      else
        match qspi_flash_wait_ready env.busy 0 5000 with
        | none => none
        | some s2 => some (s2, [FlashEvent.qspiBusWrite address length])

/-- qspi_flash_erase_sector from qspi_flash.c (lines 393-427): sector-aligns
the address, bounds-checks, wait (budget 1000), write-enable, 4 KB erase,
wait (budget 5000). -/
def qspi_flash_erase_sector (env : QspiEnv) (g_inited : Bool) (address : Nat) :
    Option (qspi_flash_status_t × List FlashEvent) :=
  if !g_inited then some (qspi_flash_status_t.ERROR, [])
  else
    let address := sectorAlign address
    if QSPI_FLASH_SIZE ≤ address then some (qspi_flash_status_t.ERROR, [])
    else
      match qspi_flash_wait_ready env.busy 0 1000 with
      | none => none
      | some s1 =>
        if s1 ≠ qspi_flash_status_t.SUCCESS then some (s1, [])
        else if qspi_flash_write_enable env ≠ qspi_flash_status_t.SUCCESS then
          some (qspi_flash_status_t.ERROR, [])
        else if !env.eraseOk then some (qspi_flash_status_t.ERROR, [])
        else
          match qspi_flash_wait_ready env.busy 0 5000 with
          | none => none
          | some s2 => some (s2, [FlashEvent.qspiErase4K address])

/-- Loop body of qspi_flash_erase_block (lines 444-473): erases in 64 KB
commands (each erase command always covers a full 64 KB), advancing the
address by `min size 64KB` and decreasing `size` by the same amount, with
wait budgets 1000 before and 10000 after each command. -/
def qspi_flash_erase_block_loop (env : QspiEnv) (address : Nat) (size : Nat) :
    Option (qspi_flash_status_t × List FlashEvent) :=
  if _h : size = 0 then some (qspi_flash_status_t.SUCCESS, [])
  else
    let block_size := if W25Q16_BLOCK_SIZE_64KB ≤ size then W25Q16_BLOCK_SIZE_64KB else size
    match qspi_flash_wait_ready env.busy 0 1000 with
    | none => none
    | some s1 =>
      if s1 ≠ qspi_flash_status_t.SUCCESS then some (s1, [])
      else if qspi_flash_write_enable env ≠ qspi_flash_status_t.SUCCESS then
        some (qspi_flash_status_t.ERROR, [])
      else if !env.eraseOk then some (qspi_flash_status_t.ERROR, [])
      else
        match qspi_flash_wait_ready env.busy 0 10000 with
        | none => none
        | some s2 =>
          if s2 ≠ qspi_flash_status_t.SUCCESS then some (s2, [FlashEvent.qspiErase64K address])
          else
            match qspi_flash_erase_block_loop env (address + block_size) (size - block_size) with
            | none => none
            | some (s3, evs) => some (s3, FlashEvent.qspiErase64K address :: evs)
termination_by size
decreasing_by
  simp only [W25Q16_BLOCK_SIZE_64KB]
  split <;> omega

/-- qspi_flash_erase_block from qspi_flash.c (lines 430-476): init and
bounds checks, then the 64 KB chunk loop. -/
def qspi_flash_erase_block (env : QspiEnv) (g_inited : Bool) (address : Nat)
    (size : Nat) : Option (qspi_flash_status_t × List FlashEvent) :=
  if !g_inited then some (qspi_flash_status_t.ERROR, [])
  else if QSPI_FLASH_SIZE ≤ address then some (qspi_flash_status_t.ERROR, [])
  else qspi_flash_erase_block_loop env address size

/-- qspi_flash_chip_erase from qspi_flash.c (lines 479-505): init check,
wait (budget 1000), write-enable, full-chip erase, wait (budget 60000). -/
def qspi_flash_chip_erase (env : QspiEnv) (g_inited : Bool) :
    Option (qspi_flash_status_t × List FlashEvent) :=
  if !g_inited then some (qspi_flash_status_t.ERROR, [])
  else
    match qspi_flash_wait_ready env.busy 0 1000 with
    | none => none
    | some s1 =>
      if s1 ≠ qspi_flash_status_t.SUCCESS then some (s1, [])
      else if qspi_flash_write_enable env ≠ qspi_flash_status_t.SUCCESS then
        some (qspi_flash_status_t.ERROR, [])
      else if !env.eraseOk then some (qspi_flash_status_t.ERROR, [])
      else
        match qspi_flash_wait_ready env.busy 0 60000 with
        | none => none
        | some s2 => some (s2, [FlashEvent.qspiEraseAll])

/-- Mutable state of flash_nrf5x.c together with the external driver flag and
the memory-mapped internal flash contents.  `fl_addr`/`fl_buf` are `_fl_addr`
and `_fl_buf`; `qspi_erased_sector` is `_qspi_erased_sector` (0xFFFFFFFF =
none); `qspi_initialized_local` is the function-local static `qspi_initialized`
of `flash_nrf5x_write`; `g_qspi_initialized` is the driver flag from
qspi_flash.c; `intFlash` maps internal-flash byte addresses to contents. -/
structure FlashState where
  fl_addr : Nat
  fl_buf : Nat → Nat
  qspi_erased_sector : Nat
  qspi_initialized_local : Bool
  g_qspi_initialized : Bool
  intFlash : Nat → Nat

/-- The `memcmp(_fl_buf, (void *) _fl_addr, FLASH_PAGE_SIZE) == 0` test of
flash_nrf5x_flush: the buffered page is byte-identical to the device
contents at the cached address. -/
def pageMatches (st : FlashState) : Bool :=
  (List.range FLASH_PAGE_SIZE).all fun i => st.fl_buf i == st.intFlash (st.fl_addr + i)

/-- flash_nrf5x_flush from flash_nrf5x.c (lines 46-69): no-op when no page is
cached; skips erase and program when the buffer matches the device; otherwise
erases (only when `need_erase`) and programs the full page; always resets the
cache to the invalid address.  Programming is the external
`nrfx_nvmc_words_write` primitive, modelled (per the spec's primitive
contract) as writing the buffered words. -/
def flash_nrf5x_flush (need_erase : Bool) (st : FlashState) :
    FlashState × List FlashEvent :=
  if st.fl_addr = FLASH_CACHE_INVALID_ADDR then (st, [])
  else if pageMatches st then ({ st with fl_addr := FLASH_CACHE_INVALID_ADDR }, [])
  else
    ({ st with
        intFlash := fun a =>
          if st.fl_addr ≤ a ∧ a < st.fl_addr + FLASH_PAGE_SIZE then st.fl_buf (a - st.fl_addr)
          else st.intFlash a,
        fl_addr := FLASH_CACHE_INVALID_ADDR },
      (if need_erase then [FlashEvent.pageErase st.fl_addr] else [])
        ++ [FlashEvent.pageProgram st.fl_addr])

/-- flash_nrf5x_reset_qspi_erase_cache from flash_nrf5x.c (lines 73-76). -/
def flash_nrf5x_reset_qspi_erase_cache (st : FlashState) : FlashState :=
  { st with qspi_erased_sector := 4294967295 }

/-- flash_nrf5x_write from flash_nrf5x.c (lines 79-147).  Addresses inside
the QSPI XIP window are routed to the external driver (initializing it on
first use, erasing the sector of the chunk's start address unless it is the
cached `_qspi_erased_sector`); all other addresses go through the internal
page cache (flush on page change, load the new page, overlay the bytes). -/
def flash_nrf5x_write (env : QspiEnv) (st : FlashState) (dst : Nat)
    (src : Nat → Nat) (len : Nat) (need_erase : Bool) :
    Option (FlashState × List FlashEvent) :=
  let newAddr := pageAlign dst
  if CFG_UF2_QSPI_XIP_OFFSET ≤ dst ∧ dst < CFG_UF2_QSPI_XIP_OFFSET + CFG_UF2_QSPI_FLASH_SIZE then
    match
      (if st.qspi_initialized_local then some (st, true)
       else
         match qspi_flash_init env st.g_qspi_initialized with
         | none => none
         | some (s, inited') =>
           if s = qspi_flash_status_t.SUCCESS then
             some ({ st with g_qspi_initialized := inited', qspi_initialized_local := true }, true)
           else some ({ st with g_qspi_initialized := inited' }, false)) with
    | none => none
    | some (st1, ok) =>
      if !ok then some (st1, [])
      else
        let sector_addr := sectorAlign (dst - CFG_UF2_QSPI_XIP_OFFSET)
        if need_erase then
          if sector_addr ≠ st1.qspi_erased_sector then
            match qspi_flash_erase_sector env st1.g_qspi_initialized sector_addr with
            | none => none
            | some (es, eevs) =>
              if es ≠ qspi_flash_status_t.SUCCESS then some (st1, eevs)
              else
                let st2 := { st1 with qspi_erased_sector := sector_addr }
                match qspi_flash_write env st2.g_qspi_initialized
                    (dst - CFG_UF2_QSPI_XIP_OFFSET) (some src) len with
                | none => none
                | some (_, wevs) => some (st2, eevs ++ wevs)
          else
            match qspi_flash_write env st1.g_qspi_initialized
                (dst - CFG_UF2_QSPI_XIP_OFFSET) (some src) len with
            | none => none
            | some (_, wevs) => some (st1, wevs)
        else
          match qspi_flash_write env st1.g_qspi_initialized
              (dst - CFG_UF2_QSPI_XIP_OFFSET) (some src) len with
          | none => none
          | some (_, wevs) => some (st1, wevs)
  else
    let p :=
      if newAddr ≠ st.fl_addr then
        let q := flash_nrf5x_flush need_erase st
        ({ q.1 with fl_addr := newAddr, fl_buf := fun i => q.1.intFlash (newAddr + i) }, q.2)
      else (st, [])
    some
      ({ p.1 with
          fl_buf := fun i =>
            if dst % FLASH_PAGE_SIZE ≤ i ∧ i < dst % FLASH_PAGE_SIZE + len then
              src (i - dst % FLASH_PAGE_SIZE)
            else p.1.fl_buf i },
        p.2)

/-- One call to `flash_nrf5x_write` as data: destination, source bytes,
length, and the `need_erase` flag passed with the call. -/
structure WriteOp where
  dst : Nat
  src : Nat → Nat
  len : Nat
  ne : Bool

/-- Sequencing of several `flash_nrf5x_write` calls, concatenating their
event traces. -/
def flash_nrf5x_write_list (env : QspiEnv) (st : FlashState) :
    List WriteOp → Option (FlashState × List FlashEvent)
  | [] => some (st, [])
  | op :: ops =>
    match flash_nrf5x_write env st op.dst op.src op.len op.ne with
    | none => none
    | some (st', evs) =>
      match flash_nrf5x_write_list env st' ops with
      | none => none
      | some (st'', evs') => some (st'', evs ++ evs')

/-- Overlay of one write call onto a page buffer: the `memcpy` of
flash_nrf5x_write line 146. -/
def overlayOne (b : Nat → Nat) (op : WriteOp) : Nat → Nat :=
  fun i =>
    if op.dst % FLASH_PAGE_SIZE ≤ i ∧ i < op.dst % FLASH_PAGE_SIZE + op.len then
      op.src (i - op.dst % FLASH_PAGE_SIZE)
    else b i

/-- Overlay of a list of write calls in submission order. -/
def overlayOps (b : Nat → Nat) (ops : List WriteOp) : Nat → Nat :=
  ops.foldl overlayOne b

/-- Contents of one internal-flash page as a buffer-indexed function. -/
def loadPage (dev : Nat → Nat) (p : Nat) : Nat → Nat := fun i => dev (p + i)

/-- Boot state of flash_nrf5x.c: empty page cache, erase cache at its
sentinel, QSPI not initialized, internal flash holding `dev`.  The page
buffer's boot contents are unspecified in C; zero is used. -/
def initialFlashState (dev : Nat → Nat) : FlashState :=
  { fl_addr := FLASH_CACHE_INVALID_ADDR
    fl_buf := fun _ => 0
    qspi_erased_sector := 4294967295
    qspi_initialized_local := false
    g_qspi_initialized := false
    intFlash := dev }

/-- Environment in which every hardware primitive succeeds, the chip is never
busy, and the quad-enable bit is already set. -/
def envAllGood : QspiEnv :=
  { nrfxInitOk := true
    busy := fun _ => false
    cinstrWriteEnableOk := true
    cinstrReadStatus1Ok := true
    cinstrReadStatus2Ok := true
    status1 := 0
    status2 := 2
    cinstrWriteStatusOk := true
    readOk := true
    writeOk := true
    eraseOk := true }

/-- Sector-erase addresses occurring in a trace, in order. -/
def eraseSectorAddrs (evs : List FlashEvent) : List Nat :=
  evs.filterMap fun e =>
    match e with
    | FlashEvent.qspiErase4K a => some a
    | _ => none

/-- The C1 scenario: from a boot state with a freshly reset erase cache,
write 10 bytes at external-flash offset 4090 and then 10 bytes at offset
8190, both with `need_erase`, in the all-good environment. -/
def c1Run : Option (FlashState × List FlashEvent) :=
  match flash_nrf5x_write envAllGood
      (flash_nrf5x_reset_qspi_erase_cache (initialFlashState fun _ => 0))
      (CFG_UF2_QSPI_XIP_OFFSET + 4090) (fun _ => 171) 10 true with
  | none => none
  | some (st1, t1) =>
    match flash_nrf5x_write envAllGood st1
        (CFG_UF2_QSPI_XIP_OFFSET + 8190) (fun _ => 171) 10 true with
    | none => none
    | some (st2, t2) => some (st2, t1 ++ t2)

/-- Sector-erase addresses issued during the C1 scenario. -/
def c1EraseAddrs : List Nat :=
  match c1Run with
  | none => []
  | some (_, t) => eraseSectorAddrs t

/-- C1, counterexample: in the claimed scenario (capacity 2,097,152, sector
size 4,096, 10-byte writes at offsets 4,090 and 8,190 with `need_erase`,
fresh erase cache) the write router issues sector erases at addresses 0 and
4,096 only; no erase is ever issued at address 8,192, refuting the claimed
erase set \x7b0, 4096, 8192\x7d. -/
theorem c1_scenario_counterexample :
    c1EraseAddrs = [0, 4096] ∧ 8192 ∉ c1EraseAddrs := by
  constructor
  · decide
  · decide

/-- C1, amended: in the claimed scenario the write router issues erase
commands at exactly the sector-aligned addresses 0 and 4,096, in that order,
with no aligned address erased twice within the session; the sector at
8,192, although the second chunk crosses into it, is never erased, because
each chunk erases only the sector containing its starting offset. -/
theorem c1_scenario_amended :
    c1EraseAddrs = [0, 4096] ∧ c1EraseAddrs.Nodup ∧ 8192 ∉ c1EraseAddrs := by
  refine ⟨by decide, ?_, by decide⟩
  have h : c1EraseAddrs = [0, 4096] := by decide
  rw [h]
  decide

theorem wait_ready_not_busy (k t : Nat) :
    qspi_flash_wait_ready (fun _ => false) k t = some qspi_flash_status_t.SUCCESS := by
  match t with
  | 0 => simp [qspi_flash_wait_ready]
  | 1 => simp [qspi_flash_wait_ready]
  | t + 2 => simp [qspi_flash_wait_ready]

theorem wait_ready_always_busy :
    ∀ t k, t ≠ 0 →
      qspi_flash_wait_ready (fun _ => true) k t = some qspi_flash_status_t.TIMEOUT := by
  intro t
  induction t using Nat.strong_induction_on with
  | _ t ih =>
    intro k ht
    match t, ht with
    | 1, _ => simp [qspi_flash_wait_ready]
    | t + 2, _ =>
      rw [qspi_flash_wait_ready]
      simpa using ih (t + 1) (by omega) (k + 1) (by omega)

theorem wait_ready_isSome (busy : Nat → Bool) :
    ∀ t k, t ≠ 0 → (qspi_flash_wait_ready busy k t).isSome := by
  intro t
  induction t using Nat.strong_induction_on with
  | _ t ih =>
    intro k ht
    match t, ht with
    | 1, _ =>
      rw [qspi_flash_wait_ready]
      split <;> simp
    | t + 2, _ =>
      rw [qspi_flash_wait_ready]
      split
      · exact ih (t + 1) (by omega) (k + 1) (by omega)
      · simp


/-- Shape of the trace produced by one external-flash write: either nothing
was issued, or exactly one bus write. -/
theorem qspi_flash_write_trace (env : QspiEnv) (g : Bool) (a : Nat)
    (d : Option (Nat → Nat)) (l : Nat) (s : qspi_flash_status_t)
    (evs : List FlashEvent)
    (h : qspi_flash_write env g a d l = some (s, evs)) :
    evs = [] ∨ ∃ x y, evs = [FlashEvent.qspiBusWrite x y] := by
  rcases hw1 : qspi_flash_wait_ready env.busy 0 1000 with _ | s1
  all_goals rcases hw2 : qspi_flash_wait_ready env.busy 0 5000 with _ | s2
  all_goals simp only [qspi_flash_write, hw1, hw2] at h
  all_goals repeat' split at h
  all_goals first
    | exact Option.noConfusion h
    | (injection h with h'
       first
        | exact Or.inl (congrArg Prod.snd h').symm
        | exact Or.inr ⟨_, _, (congrArg Prod.snd h').symm⟩)

/-- Shape of the trace produced by one sector erase: either nothing was
issued, or exactly one 4 KB erase at the aligned address. -/
theorem qspi_flash_erase_sector_trace (env : QspiEnv) (g : Bool) (a : Nat)
    (s : qspi_flash_status_t) (evs : List FlashEvent)
    (h : qspi_flash_erase_sector env g a = some (s, evs)) :
    evs = [] ∨ evs = [FlashEvent.qspiErase4K (sectorAlign a)] := by
  rcases hw1 : qspi_flash_wait_ready env.busy 0 1000 with _ | s1
  all_goals rcases hw2 : qspi_flash_wait_ready env.busy 0 5000 with _ | s2
  all_goals simp only [qspi_flash_erase_sector, hw1, hw2] at h
  all_goals repeat' split at h
  all_goals first
    | exact Option.noConfusion h
    | (injection h with h'
       first
        | exact Or.inl (congrArg Prod.snd h').symm
        | exact Or.inr (congrArg Prod.snd h').symm)

theorem qspi_flash_write_isSome (env : QspiEnv) (g : Bool) (a : Nat)
    (d : Option (Nat → Nat)) (l : Nat) : (qspi_flash_write env g a d l).isSome := by
  obtain ⟨s1, h1⟩ :=
    Option.isSome_iff_exists.mp (wait_ready_isSome env.busy 1000 0 (by omega))
  obtain ⟨s2, h2⟩ :=
    Option.isSome_iff_exists.mp (wait_ready_isSome env.busy 5000 0 (by omega))
  simp only [qspi_flash_write, h1, h2]
  repeat' split
  all_goals simp

/-- C4: flush of the internal page cache is a no-op on the device when no
page is cached; when the buffered page equals the device contents it
performs neither erase nor program; and it always leaves the cache empty. -/
theorem c4_flush_noop_and_idempotent (need_erase : Bool) (st : FlashState) :
    (st.fl_addr = FLASH_CACHE_INVALID_ADDR → flash_nrf5x_flush need_erase st = (st, []))
    ∧ (st.fl_addr ≠ FLASH_CACHE_INVALID_ADDR → pageMatches st = true →
        (flash_nrf5x_flush need_erase st).2 = []
        ∧ (flash_nrf5x_flush need_erase st).1.intFlash = st.intFlash)
    ∧ (flash_nrf5x_flush need_erase st).1.fl_addr = FLASH_CACHE_INVALID_ADDR := by
  refine ⟨?_, ?_, ?_⟩
  · intro h
    simp [flash_nrf5x_flush, h]
  · intro h hm
    simp [flash_nrf5x_flush, h, hm]
  · unfold flash_nrf5x_flush
    split
    · next h => simpa using h
    · split <;> simp

/-- State with a cached page whose contents match the device. -/
def c4MatchState : FlashState :=
  { fl_addr := 0
    fl_buf := fun _ => 5
    qspi_erased_sector := 4294967295
    qspi_initialized_local := false
    g_qspi_initialized := false
    intFlash := fun _ => 5 }

/-- Witness for C4 at concrete states: the empty-cache branch and the
matching-page branch both hold at explicit inputs. -/
theorem c4_flush_noop_and_idempotent_witness :
    flash_nrf5x_flush true (initialFlashState fun _ => 0) =
      (initialFlashState fun _ => 0, [])
    ∧ ((flash_nrf5x_flush true c4MatchState).2 = []
        ∧ (flash_nrf5x_flush true c4MatchState).1.intFlash = c4MatchState.intFlash)
    ∧ (flash_nrf5x_flush true c4MatchState).1.fl_addr = FLASH_CACHE_INVALID_ADDR :=
  ⟨(c4_flush_noop_and_idempotent true (initialFlashState fun _ => 0)).1 rfl,
   (c4_flush_noop_and_idempotent true c4MatchState).2.1 (by decide)
     (by simp [pageMatches, c4MatchState]),
   (c4_flush_noop_and_idempotent true c4MatchState).2.2⟩

/-- Environment in which the chip is never busy but every data-moving bus
primitive fails. -/
def envBusFail : QspiEnv :=
  { envAllGood with readOk := false, writeOk := false, eraseOk := false }

/-- Environment in which the chip reports busy on every poll. -/
def envBusyForever : QspiEnv :=
  { envAllGood with busy := fun _ => true }

/-- C5, counterexample: the overrun check `address + length >
QSPI_FLASH_SIZE` is a 32-bit addition, so a write (or read) at address 1
with length 4,294,967,295 wraps the sum to 0, skips the clamp, and issues
the transfer with the full untruncated length instead of
`capacity - address` = 2,097,151 — refuting the claimed truncation for
every overrunning in-range call. -/
theorem c5_wraparound_counterexample :
    qspi_flash_write envAllGood true 1 (some fun _ => 7) 4294967295
      = some (qspi_flash_status_t.SUCCESS, [FlashEvent.qspiBusWrite 1 4294967295])
    ∧ qspi_flash_read envAllGood true 1 (some fun _ => 7) 4294967295
      = (qspi_flash_status_t.SUCCESS, [FlashEvent.qspiBusRead 1 4294967295])
    ∧ (4294967295 : Nat) ≠ QSPI_FLASH_SIZE - 1 :=
  ⟨by decide, by decide, by decide⟩

/-- C5, amended: for the initialized external driver, read and write fail
with an empty trace on a NULL buffer, a zero length, or an address at or
beyond capacity; and when the address is in range, the range overruns
capacity, and the 32-bit sum `address + length` does not wrap (it is below
2^32), the operation succeeds with the transfer length silently clamped to
`capacity - address` (given that the hardware primitives themselves
succeed).  When the sum wraps modulo 2^32, the clamp is skipped (see the
counterexample). -/
theorem c5_bounds_clamp_vs_reject_amended (env : QspiEnv) (address : Nat)
    (data : Option (Nat → Nat)) (length : Nat) :
    (qspi_flash_read env true address none length = (qspi_flash_status_t.ERROR, [])
      ∧ qspi_flash_write env true address none length = some (qspi_flash_status_t.ERROR, []))
    ∧ (qspi_flash_read env true address data 0 = (qspi_flash_status_t.ERROR, [])
      ∧ qspi_flash_write env true address data 0 = some (qspi_flash_status_t.ERROR, []))
    ∧ (QSPI_FLASH_SIZE ≤ address →
        qspi_flash_read env true address data length = (qspi_flash_status_t.ERROR, [])
        ∧ qspi_flash_write env true address data length = some (qspi_flash_status_t.ERROR, []))
    ∧ (address < QSPI_FLASH_SIZE → QSPI_FLASH_SIZE < address + length →
        address + length < 4294967296 →
        data.isSome = true → env.readOk = true → env.busy = (fun _ => false) →
        env.cinstrWriteEnableOk = true → env.writeOk = true →
        qspi_flash_read env true address data length
          = (qspi_flash_status_t.SUCCESS,
             [FlashEvent.qspiBusRead address (QSPI_FLASH_SIZE - address)])
        ∧ qspi_flash_write env true address data length
          = some (qspi_flash_status_t.SUCCESS,
                  [FlashEvent.qspiBusWrite address (QSPI_FLASH_SIZE - address)])) := by
  refine ⟨⟨?_, ?_⟩, ⟨?_, ?_⟩, ?_, ?_⟩
  · simp [qspi_flash_read]
  · simp [qspi_flash_write]
  · simp [qspi_flash_read]
  · simp [qspi_flash_write]
  · intro hb
    constructor
    · simp [qspi_flash_read, hb, Nat.not_lt.mpr hb]
    · simp [qspi_flash_write, hb, Nat.not_lt.mpr hb]
  · intro ha hover hnw hd hr hbusy hwe hw
    obtain ⟨f, rfl⟩ := Option.isSome_iff_exists.mp hd
    have hlen : length ≠ 0 := by omega
    have hmod : (address + length) % 4294967296 = address + length :=
      Nat.mod_eq_of_lt hnw
    constructor
    · simp [qspi_flash_read, hr, hlen, Nat.not_le.mpr ha, hover, hmod]
    · simp [qspi_flash_write, hlen, Nat.not_le.mpr ha, hover, hmod, hbusy,
        wait_ready_not_busy, qspi_flash_write_enable, hwe, hw]

/-- Witness for C5's amended statement at a concrete overrunning,
non-wrapping range: a 1000-byte write at address 2,097,000 of the
2,097,152-byte flash succeeds with the transfer clamped to 152 bytes, and
likewise for read. -/
theorem c5_bounds_clamp_vs_reject_amended_witness :
    qspi_flash_read envAllGood true 2097000 (some fun _ => 7) 1000
      = (qspi_flash_status_t.SUCCESS, [FlashEvent.qspiBusRead 2097000 152])
    ∧ qspi_flash_write envAllGood true 2097000 (some fun _ => 7) 1000
      = some (qspi_flash_status_t.SUCCESS, [FlashEvent.qspiBusWrite 2097000 152]) :=
  (c5_bounds_clamp_vs_reject_amended envAllGood 2097000 (some fun _ => 7) 1000).2.2.2
    (by decide) (by decide) (by decide) rfl rfl rfl rfl rfl

/-- C6: when the busy-status primitive reports busy on every poll, write,
sector erase, and chip erase all terminate with the TIMEOUT status (the
wait loop's countdown expires) instead of polling unboundedly. -/
theorem c6_busy_forever_timeout (env : QspiEnv) (address : Nat)
    (data : Option (Nat → Nat)) (length : Nat)
    (hbusy : env.busy = fun _ => true) (hd : data.isSome = true)
    (hlen : length ≠ 0) (ha : address < QSPI_FLASH_SIZE) :
    qspi_flash_write env true address data length
      = some (qspi_flash_status_t.TIMEOUT, [])
    ∧ qspi_flash_erase_sector env true address
      = some (qspi_flash_status_t.TIMEOUT, [])
    ∧ qspi_flash_chip_erase env true = some (qspi_flash_status_t.TIMEOUT, []) := by
  obtain ⟨f, rfl⟩ := Option.isSome_iff_exists.mp hd
  have halign : ¬ (QSPI_FLASH_SIZE ≤ sectorAlign address) := by
    have := Nat.div_mul_le_self address W25Q16_SECTOR_SIZE
    simp only [sectorAlign]
    omega
  have hto := wait_ready_always_busy 1000 0 (by omega)
  refine ⟨?_, ?_, ?_⟩
  · simp [qspi_flash_write, hlen, Nat.not_le.mpr ha, hbusy, hto]
  · simp [qspi_flash_erase_sector, halign, hbusy, hto]
  · simp [qspi_flash_chip_erase, hbusy, hto]

/-- Witness for C6: the busy-forever environment makes a concrete in-bounds
write, sector erase, and chip erase all return TIMEOUT. -/
theorem c6_busy_forever_timeout_witness :
    qspi_flash_write envBusyForever true 0 (some fun _ => 7) 16
      = some (qspi_flash_status_t.TIMEOUT, [])
    ∧ qspi_flash_erase_sector envBusyForever true 0
      = some (qspi_flash_status_t.TIMEOUT, [])
    ∧ qspi_flash_chip_erase envBusyForever true
      = some (qspi_flash_status_t.TIMEOUT, []) :=
  c6_busy_forever_timeout envBusyForever 0 (some fun _ => 7) 16 rfl rfl
    (by decide) (by decide)

/-- C10: the not-initialized, null-buffer, zero-length, out-of-bounds, and
bus-failure conditions of read, write, sector erase, block erase, and chip
erase all return the single generic ERROR status, while only an expired
busy-wait returns the distinct TIMEOUT status — the return value cannot
distinguish the error causes. -/
theorem c10_single_error_code (env : QspiEnv) (address : Nat)
    (data : Option (Nat → Nat)) (length : Nat) :
    ((qspi_flash_read env false address data length).1 = QSPI_FLASH_STATUS_ERROR
      ∧ qspi_flash_write env false address data length = some (QSPI_FLASH_STATUS_ERROR, [])
      ∧ qspi_flash_erase_sector env false address = some (QSPI_FLASH_STATUS_ERROR, [])
      ∧ qspi_flash_erase_block env false address length = some (QSPI_FLASH_STATUS_ERROR, [])
      ∧ qspi_flash_chip_erase env false = some (QSPI_FLASH_STATUS_ERROR, []))
    ∧ ((qspi_flash_read env true address none length).1 = QSPI_FLASH_STATUS_ERROR
      ∧ qspi_flash_write env true address none length = some (QSPI_FLASH_STATUS_ERROR, [])
      ∧ (qspi_flash_read env true address data 0).1 = QSPI_FLASH_STATUS_ERROR
      ∧ qspi_flash_write env true address data 0 = some (QSPI_FLASH_STATUS_ERROR, []))
    ∧ (QSPI_FLASH_SIZE ≤ address →
        (qspi_flash_read env true address data length).1 = QSPI_FLASH_STATUS_ERROR
        ∧ qspi_flash_write env true address data length = some (QSPI_FLASH_STATUS_ERROR, [])
        ∧ qspi_flash_erase_sector env true address = some (QSPI_FLASH_STATUS_ERROR, [])
        ∧ qspi_flash_erase_block env true address length = some (QSPI_FLASH_STATUS_ERROR, []))
    ∧ (env.busy = (fun _ => false) → env.cinstrWriteEnableOk = true →
        env.readOk = false → env.writeOk = false → env.eraseOk = false →
        address < QSPI_FLASH_SIZE → data.isSome = true → length ≠ 0 →
        (qspi_flash_read env true address data length).1 = QSPI_FLASH_STATUS_ERROR
        ∧ qspi_flash_write env true address data length = some (QSPI_FLASH_STATUS_ERROR, [])
        ∧ qspi_flash_erase_sector env true address = some (QSPI_FLASH_STATUS_ERROR, [])
        ∧ qspi_flash_chip_erase env true = some (QSPI_FLASH_STATUS_ERROR, []))
    ∧ (QSPI_FLASH_STATUS_ERROR ≠ QSPI_FLASH_STATUS_TIMEOUT
      ∧ (env.busy = (fun _ => true) → data.isSome = true → length ≠ 0 →
          address < QSPI_FLASH_SIZE →
          qspi_flash_write env true address data length
            = some (QSPI_FLASH_STATUS_TIMEOUT, []))) := by
  refine ⟨⟨?_, ?_, ?_, ?_, ?_⟩, ⟨?_, ?_, ?_, ?_⟩, ?_, ?_, ?_, ?_⟩
  · simp [qspi_flash_read, QSPI_FLASH_STATUS_ERROR]
  · simp [qspi_flash_write, QSPI_FLASH_STATUS_ERROR]
  · simp [qspi_flash_erase_sector, QSPI_FLASH_STATUS_ERROR]
  · simp [qspi_flash_erase_block, QSPI_FLASH_STATUS_ERROR]
  · simp [qspi_flash_chip_erase, QSPI_FLASH_STATUS_ERROR]
  · simp [qspi_flash_read, QSPI_FLASH_STATUS_ERROR]
  · simp [qspi_flash_write, QSPI_FLASH_STATUS_ERROR]
  · simp [qspi_flash_read, QSPI_FLASH_STATUS_ERROR]
  · simp [qspi_flash_write, QSPI_FLASH_STATUS_ERROR]
  · intro hb
    have halign : QSPI_FLASH_SIZE ≤ sectorAlign address := by
      simp only [sectorAlign, W25Q16_SECTOR_SIZE]
      simp only [QSPI_FLASH_SIZE] at hb ⊢
      omega
    refine ⟨?_, ?_, ?_, ?_⟩
    · simp [qspi_flash_read, hb, Nat.not_lt.mpr hb, QSPI_FLASH_STATUS_ERROR]
    · simp [qspi_flash_write, hb, Nat.not_lt.mpr hb, QSPI_FLASH_STATUS_ERROR]
    · simp [qspi_flash_erase_sector, halign, QSPI_FLASH_STATUS_ERROR]
    · simp [qspi_flash_erase_block, hb, QSPI_FLASH_STATUS_ERROR]
  · intro hbusy hwe hr hw he ha hd hlen
    obtain ⟨f, rfl⟩ := Option.isSome_iff_exists.mp hd
    have halign : ¬ (QSPI_FLASH_SIZE ≤ sectorAlign address) := by
      have := Nat.div_mul_le_self address W25Q16_SECTOR_SIZE
      simp only [sectorAlign]
      omega
    refine ⟨?_, ?_, ?_, ?_⟩
    · simp [qspi_flash_read, hr, hlen, Nat.not_le.mpr ha, QSPI_FLASH_STATUS_ERROR]
    · simp [qspi_flash_write, hw, hlen, Nat.not_le.mpr ha, hbusy,
        wait_ready_not_busy, qspi_flash_write_enable, hwe, QSPI_FLASH_STATUS_ERROR]
    · simp [qspi_flash_erase_sector, he, halign, hbusy,
        wait_ready_not_busy, qspi_flash_write_enable, hwe, QSPI_FLASH_STATUS_ERROR]
    · simp [qspi_flash_chip_erase, he, hbusy,
        wait_ready_not_busy, qspi_flash_write_enable, hwe, QSPI_FLASH_STATUS_ERROR]
  · simp [QSPI_FLASH_STATUS_ERROR, QSPI_FLASH_STATUS_TIMEOUT]
  · intro hbusy hd hlen ha
    obtain ⟨f, rfl⟩ := Option.isSome_iff_exists.mp hd
    have hto := wait_ready_always_busy 1000 0 (by omega)
    simp [qspi_flash_write, hlen, Nat.not_le.mpr ha, hbusy, hto,
      QSPI_FLASH_STATUS_TIMEOUT]

/-- Witness for C10 at concrete inputs: a bus-failure write and a
not-initialized write return the same ERROR value, and the busy-forever
write returns TIMEOUT. -/
theorem c10_single_error_code_witness :
    qspi_flash_write envBusFail true 0 (some fun _ => 7) 16
      = some (QSPI_FLASH_STATUS_ERROR, [])
    ∧ qspi_flash_write envBusFail false 0 (some fun _ => 7) 16
      = some (QSPI_FLASH_STATUS_ERROR, [])
    ∧ qspi_flash_write envBusyForever true 0 (some fun _ => 7) 16
      = some (QSPI_FLASH_STATUS_TIMEOUT, []) :=
  ⟨((c10_single_error_code envBusFail 0 (some fun _ => 7) 16).2.2.2.1
      rfl rfl rfl rfl rfl (by decide) rfl (by decide)).2.1,
   (c10_single_error_code envBusFail 0 (some fun _ => 7) 16).1.2.1,
   (c10_single_error_code envBusyForever 0 (some fun _ => 7) 16).2.2.2.2.2
      rfl rfl (by decide) (by decide)⟩

theorem configure_quad_mode_isSome (env : QspiEnv) :
    (qspi_flash_configure_quad_mode env).isSome := by
  obtain ⟨s, hs⟩ :=
    Option.isSome_iff_exists.mp (wait_ready_isSome env.busy 1000 0 (by omega))
  simp only [qspi_flash_configure_quad_mode, hs]
  repeat' split
  all_goals simp

/-- Environment in which the quad-enable bit is clear and the
status-register write fails, so quad-mode configuration fails. -/
def envQuadFail : QspiEnv :=
  { envAllGood with status2 := 0, cinstrWriteStatusOk := false }

/-- C8: the result of `qspi_flash_init` from the uninitialized state depends
only on the low-level bus-init outcome — it returns SUCCESS and marks the
driver initialized for every quad-mode outcome, and returns ERROR without
marking it initialized exactly when the bus init fails; in particular there
is an environment where quad-mode configuration fails yet init succeeds. -/
theorem c8_quad_mode_failure_nonfatal :
    (∀ env : QspiEnv,
        qspi_flash_init env false =
          some (if env.nrfxInitOk then (qspi_flash_status_t.SUCCESS, true)
                else (qspi_flash_status_t.ERROR, false)))
    ∧ qspi_flash_configure_quad_mode envQuadFail = some qspi_flash_status_t.ERROR
    ∧ qspi_flash_init envQuadFail false = some (qspi_flash_status_t.SUCCESS, true) := by
  refine ⟨?_, by decide, by decide⟩
  intro env
  obtain ⟨q, hq⟩ := Option.isSome_iff_exists.mp (configure_quad_mode_isSome env)
  rcases hni : env.nrfxInitOk with _ | _
  · simp [qspi_flash_init, hni]
  · simp [qspi_flash_init, hni, hq]

/-- Public operations of the external driver, viewed through their effect on
the `g_qspi_initialized` flag: only `qspi_flash_init` and
`qspi_flash_deinit` assign it; read, write, the erases, and the XIP-offset
setter only read it (qspi_flash.c lines 324-514). -/
inductive QspiOp where
  | opInit
  | opDeinit
  | opRead (address : Nat) (length : Nat)
  | opWrite (address : Nat) (length : Nat)
  | opEraseSector (address : Nat)
  | opEraseBlock (address : Nat) (size : Nat)
  | opChipErase
  | opSetXipOffset (offset : Nat)
deriving DecidableEq

/-- Effect of one public driver call on the `g_qspi_initialized` flag.  The
init case keeps the flag unchanged on the (unreachable) nonterminating wait;
all data operations leave the flag untouched, as in the source. -/
def qspi_run_op (env : QspiEnv) (g : Bool) : QspiOp → Bool
  | QspiOp.opInit =>
    match qspi_flash_init env g with
    | none => g
    | some (_, g') => g'
  | QspiOp.opDeinit => qspi_flash_deinit g
  | QspiOp.opRead _ _ => g
  | QspiOp.opWrite _ _ => g
  | QspiOp.opEraseSector _ => g
  | QspiOp.opEraseBlock _ _ => g
  | QspiOp.opChipErase => g
  | QspiOp.opSetXipOffset _ => g

/-- C7, counterexample: after a successful init (the driver reaches Ready),
a `qspi_flash_deinit` call puts the driver back into the Uninitialized
state, refuting "the driver never returns to the Uninitialized state". -/
theorem c7_deinit_counterexample :
    qspi_flash_init envAllGood false = some (qspi_flash_status_t.SUCCESS, true)
    ∧ qspi_run_op envAllGood false QspiOp.opInit = true
    ∧ qspi_run_op envAllGood (qspi_run_op envAllGood false QspiOp.opInit)
        QspiOp.opDeinit = false := by
  refine ⟨by decide, by decide, by decide⟩

/-- C7, amended: after a successful init every subsequent init call is a
no-op returning success, and the driver stays in the Ready state under every
sequence of public operations that does not contain `qspi_flash_deinit`;
only an explicit deinit returns it to Uninitialized. -/
theorem c7_init_once_amended :
    (∀ env : QspiEnv, qspi_flash_init env true = some (qspi_flash_status_t.SUCCESS, true))
    ∧ (∀ (env : QspiEnv) (ops : List QspiOp), QspiOp.opDeinit ∉ ops →
        ops.foldl (qspi_run_op env) true = true) := by
  constructor
  · intro env
    simp [qspi_flash_init]
  · intro env ops
    induction ops with
    | nil => simp
    | cons op ops ih =>
      intro hops
      have hne : op ≠ QspiOp.opDeinit := by
        intro h
        exact hops (h ▸ List.mem_cons_self _ _)
      have h1 : qspi_run_op env true op = true := by
        cases op
        case opDeinit => exact absurd rfl hne
        all_goals simp [qspi_run_op, qspi_flash_init]
      simp only [List.foldl_cons, h1]
      exact ih fun h => hops (List.mem_cons_of_mem _ h)

/-- Witness for C7's amended statement: re-init from Ready is a successful
no-op, and a concrete deinit-free operation sequence leaves the driver
Ready. -/
theorem c7_init_once_amended_witness :
    qspi_flash_init envAllGood true = some (qspi_flash_status_t.SUCCESS, true)
    ∧ [QspiOp.opInit, QspiOp.opRead 0 4,
        QspiOp.opChipErase].foldl (qspi_run_op envAllGood) true = true :=
  ⟨c7_init_once_amended.1 envAllGood,
   c7_init_once_amended.2 envAllGood _ (by decide)⟩

theorem erase_block_loop_good (env : QspiEnv)
    (hbusy : env.busy = fun _ => false) (hwe : env.cinstrWriteEnableOk = true)
    (he : env.eraseOk = true) :
    ∀ size address,
      qspi_flash_erase_block_loop env address size =
        some (qspi_flash_status_t.SUCCESS,
          (List.range ((size + 65535) / 65536)).map
            fun i => FlashEvent.qspiErase64K (address + 65536 * i)) := by
  intro size
  induction size using Nat.strong_induction_on with
  | _ size ih =>
    intro address
    rw [qspi_flash_erase_block_loop]
    by_cases h0 : size = 0
    · subst h0
      simp
    · rw [dif_neg h0]
      simp only [hbusy, wait_ready_not_busy, qspi_flash_write_enable, hwe, he,
        if_true, Bool.not_true, Bool.false_eq_true, if_false, ne_eq,
        not_true_eq_false, Bool.not_false]
      rcases le_or_lt W25Q16_BLOCK_SIZE_64KB size with hge | hlt
      · have hbs : (if W25Q16_BLOCK_SIZE_64KB ≤ size then W25Q16_BLOCK_SIZE_64KB else size)
            = 65536 := by
          rw [if_pos hge]
          rfl
        rw [hbs]
        rw [ih (size - 65536) (by simp only [W25Q16_BLOCK_SIZE_64KB] at hge; omega)
            (address + 65536)]
        simp only [Option.some.injEq, Prod.mk.injEq, true_and]
        have hn : (size + 65535) / 65536 = (size - 65536 + 65535) / 65536 + 1 := by
          simp only [W25Q16_BLOCK_SIZE_64KB] at hge
          omega
        rw [hn, List.range_succ_eq_map, List.map_cons, List.map_map]
        refine List.cons_eq_cons.mpr ⟨by simp, ?_⟩
        apply List.map_congr_left
        intro i _
        simp only [Function.comp_apply]
        congr 1
        omega
      · have hbs : (if W25Q16_BLOCK_SIZE_64KB ≤ size then W25Q16_BLOCK_SIZE_64KB else size)
            = size := by
          rw [if_neg (by omega)]
        rw [hbs]
        rw [ih (size - size) (by omega) (address + size)]
        have hn : (size + 65535) / 65536 = 1 := by
          simp only [W25Q16_BLOCK_SIZE_64KB] at hlt
          omega
        simp [hn, List.range_succ]

/-- C9: with the hardware primitives succeeding, an in-bounds block erase of
`size` bytes issues exactly `ceil(size / 65536)` erase commands, each a full
64 KB erase, at addresses `address + 65536*i`; a zero size issues no erase
and returns success; and when `size` is not a multiple of 65536 the erased
range extends past `address + size`. -/
theorem c9_erase_block_chunking (env : QspiEnv) (address size : Nat)
    (hbusy : env.busy = fun _ => false) (hwe : env.cinstrWriteEnableOk = true)
    (he : env.eraseOk = true) (ha : address < QSPI_FLASH_SIZE) :
    qspi_flash_erase_block env true address size =
      some (qspi_flash_status_t.SUCCESS,
        (List.range ((size + W25Q16_BLOCK_SIZE_64KB - 1) / W25Q16_BLOCK_SIZE_64KB)).map
          fun i => FlashEvent.qspiErase64K (address + W25Q16_BLOCK_SIZE_64KB * i))
    ∧ (size = 0 → qspi_flash_erase_block env true address size
        = some (qspi_flash_status_t.SUCCESS, []))
    ∧ (size % W25Q16_BLOCK_SIZE_64KB ≠ 0 →
        address + size <
          address + W25Q16_BLOCK_SIZE_64KB *
            ((size + W25Q16_BLOCK_SIZE_64KB - 1) / W25Q16_BLOCK_SIZE_64KB)) := by
  have hmain : qspi_flash_erase_block env true address size =
      some (qspi_flash_status_t.SUCCESS,
        (List.range ((size + W25Q16_BLOCK_SIZE_64KB - 1) / W25Q16_BLOCK_SIZE_64KB)).map
          fun i => FlashEvent.qspiErase64K (address + W25Q16_BLOCK_SIZE_64KB * i)) := by
    unfold qspi_flash_erase_block
    rw [if_neg (by simp), if_neg (by omega)]
    rw [erase_block_loop_good env hbusy hwe he size address]
    simp only [W25Q16_BLOCK_SIZE_64KB]
    congr 1
  refine ⟨hmain, ?_, ?_⟩
  · intro h0
    subst h0
    simpa using hmain
  · intro hmod
    simp only [W25Q16_BLOCK_SIZE_64KB] at hmod ⊢
    omega

/-- Witness for C9: erasing 100,000 bytes at address 0 issues exactly two
full 64 KB erases, at 0 and 65,536, and 0 + 2*65536 extends past 100,000. -/
theorem c9_erase_block_chunking_witness :
    qspi_flash_erase_block envAllGood true 0 100000 =
      some (qspi_flash_status_t.SUCCESS,
        [FlashEvent.qspiErase64K 0, FlashEvent.qspiErase64K 65536])
    ∧ (0 : Nat) + 100000 < 0 + 65536 * 2 := by
  have h := c9_erase_block_chunking envAllGood 0 100000 rfl rfl rfl (by decide)
  refine ⟨?_, by omega⟩
  have h1 := h.1
  simpa using h1

/-- C2: for a chunk routed to the external flash with `need_erase` set (the
driver already initialized): if the chunk's sector-aligned destination
equals the cached `_qspi_erased_sector`, no erase is issued and the data is
written directly with the cache unchanged; otherwise the sector is erased,
and exactly when the erase succeeds its address is recorded in the cache and
the write issued after the erase; if the erase fails, the cache is unchanged
and no write is issued for the chunk. -/
theorem c2_erase_avoidance_per_chunk (env : QspiEnv) (st : FlashState) (dst : Nat)
    (src : Nat → Nat) (len : Nat)
    (h1 : CFG_UF2_QSPI_XIP_OFFSET ≤ dst)
    (h2 : dst < CFG_UF2_QSPI_XIP_OFFSET + CFG_UF2_QSPI_FLASH_SIZE)
    (hloc : st.qspi_initialized_local = true)
    (hg : st.g_qspi_initialized = true) :
    (sectorAlign (dst - CFG_UF2_QSPI_XIP_OFFSET) = st.qspi_erased_sector →
       ∃ ws wevs,
         qspi_flash_write env true (dst - CFG_UF2_QSPI_XIP_OFFSET) (some src) len
           = some (ws, wevs)
         ∧ flash_nrf5x_write env st dst src len true = some (st, wevs)
         ∧ ∀ a, FlashEvent.qspiErase4K a ∉ wevs)
    ∧ (∀ eevs, sectorAlign (dst - CFG_UF2_QSPI_XIP_OFFSET) ≠ st.qspi_erased_sector →
         qspi_flash_erase_sector env true (sectorAlign (dst - CFG_UF2_QSPI_XIP_OFFSET))
           = some (qspi_flash_status_t.SUCCESS, eevs) →
         ∃ ws wevs,
           qspi_flash_write env true (dst - CFG_UF2_QSPI_XIP_OFFSET) (some src) len
             = some (ws, wevs)
           ∧ flash_nrf5x_write env st dst src len true =
               some ({ st with
                        qspi_erased_sector := sectorAlign (dst - CFG_UF2_QSPI_XIP_OFFSET) },
                     eevs ++ wevs))
    ∧ (∀ es eevs, sectorAlign (dst - CFG_UF2_QSPI_XIP_OFFSET) ≠ st.qspi_erased_sector →
         qspi_flash_erase_sector env true (sectorAlign (dst - CFG_UF2_QSPI_XIP_OFFSET))
           = some (es, eevs) →
         es ≠ qspi_flash_status_t.SUCCESS →
         flash_nrf5x_write env st dst src len true = some (st, eevs)
         ∧ ∀ a l, FlashEvent.qspiBusWrite a l ∉ eevs) := by
  refine ⟨?_, ?_, ?_⟩
  · intro hsec
    obtain ⟨⟨ws, wevs⟩, hw⟩ := Option.isSome_iff_exists.mp
      (qspi_flash_write_isSome env true (dst - CFG_UF2_QSPI_XIP_OFFSET) (some src) len)
    refine ⟨ws, wevs, hw, ?_, ?_⟩
    · simp [flash_nrf5x_write, hloc, hg, h1, h2, hsec, hw]
    · intro a
      rcases qspi_flash_write_trace env true _ (some src) len ws wevs hw with rfl | ⟨x, y, rfl⟩
      · simp
      · simp
  · intro eevs hne hes
    obtain ⟨⟨ws, wevs⟩, hw⟩ := Option.isSome_iff_exists.mp
      (qspi_flash_write_isSome env true (dst - CFG_UF2_QSPI_XIP_OFFSET) (some src) len)
    refine ⟨ws, wevs, hw, ?_⟩
    simp [flash_nrf5x_write, hloc, hg, h1, h2, hne, hes, hw]
  · intro es eevs hne hes hnes
    constructor
    · simp [flash_nrf5x_write, hloc, hg, h1, h2, hne, hes, hnes]
    · intro a l
      rcases qspi_flash_erase_sector_trace env true _ es eevs hes with rfl | rfl
      · simp
      · simp

/-- Router state with the external driver initialized and sector 0 cached as
already erased. -/
def c2CachedState : FlashState :=
  { fl_addr := FLASH_CACHE_INVALID_ADDR
    fl_buf := fun _ => 0
    qspi_erased_sector := 0
    qspi_initialized_local := true
    g_qspi_initialized := true
    intFlash := fun _ => 0 }

/-- Witness for C2: a chunk at external offset 100 whose sector (0) is the
cached erased sector is written directly with no erase issued. -/
theorem c2_erase_avoidance_per_chunk_witness :
    ∃ ws wevs,
      qspi_flash_write envAllGood true
          (CFG_UF2_QSPI_XIP_OFFSET + 100 - CFG_UF2_QSPI_XIP_OFFSET)
          (some fun _ => 7) 10 = some (ws, wevs)
      ∧ flash_nrf5x_write envAllGood c2CachedState (CFG_UF2_QSPI_XIP_OFFSET + 100)
          (fun _ => 7) 10 true = some (c2CachedState, wevs)
      ∧ ∀ a, FlashEvent.qspiErase4K a ∉ wevs :=
  (c2_erase_avoidance_per_chunk envAllGood c2CachedState
      (CFG_UF2_QSPI_XIP_OFFSET + 100) (fun _ => 7) 10
      (by decide) (by decide) rfl rfl).1 (by decide)

/-- Flushing a cached page whose buffer differs from the device performs one
erase (when requested) and one program, empties the cache, and leaves the
page equal to the buffer. -/
theorem flush_programs_page (st : FlashState) (need_erase : Bool)
    (hinv : st.fl_addr ≠ FLASH_CACHE_INVALID_ADDR)
    (hmm : pageMatches st = false) :
    (flash_nrf5x_flush need_erase st).2 =
      (if need_erase then [FlashEvent.pageErase st.fl_addr] else [])
        ++ [FlashEvent.pageProgram st.fl_addr]
    ∧ (flash_nrf5x_flush need_erase st).1.fl_addr = FLASH_CACHE_INVALID_ADDR
    ∧ ∀ i < FLASH_PAGE_SIZE,
        (flash_nrf5x_flush need_erase st).1.intFlash (st.fl_addr + i) = st.fl_buf i := by
  unfold flash_nrf5x_flush
  rw [if_neg hinv, if_neg (by simp [hmm])]
  refine ⟨rfl, rfl, ?_⟩
  intro i hi
  simp only
  rw [if_pos ⟨Nat.le_add_right _ _, by omega⟩]
  congr 1
  omega

/-- A sequence of writes whose pages all equal the currently cached page
flushes nothing and only overlays the buffer, in submission order. -/
theorem write_list_same_page (env : QspiEnv) :
    ∀ (ops : List WriteOp) (st : FlashState),
      (∀ op ∈ ops, op.dst < CFG_UF2_QSPI_XIP_OFFSET ∧ pageAlign op.dst = st.fl_addr) →
      flash_nrf5x_write_list env st ops =
        some ({ st with fl_buf := overlayOps st.fl_buf ops }, []) := by
  intro ops
  induction ops with
  | nil =>
    intro st h
    simp [flash_nrf5x_write_list, overlayOps]
  | cons op ops ih =>
    intro st h
    obtain ⟨hdst, hpage⟩ := h op (List.mem_cons_self _ _)
    have hwin : ¬ (CFG_UF2_QSPI_XIP_OFFSET ≤ op.dst
        ∧ op.dst < CFG_UF2_QSPI_XIP_OFFSET + CFG_UF2_QSPI_FLASH_SIZE) := by
      intro hc
      omega
    have hstep : flash_nrf5x_write env st op.dst op.src op.len op.ne =
        some ({ st with fl_buf := overlayOne st.fl_buf op }, []) := by
      simp only [flash_nrf5x_write, if_neg hwin]
      rw [if_neg (by simp [hpage])]
      rfl
    simp only [flash_nrf5x_write_list, hstep,
      ih { st with fl_buf := overlayOne st.fl_buf op }
        (by intro o ho
            exact ⟨(h o (List.mem_cons_of_mem _ ho)).1,
                   (h o (List.mem_cons_of_mem _ ho)).2⟩)]
    simp [overlayOps]

theorem flush_empty (need_erase : Bool) (st : FlashState)
    (h : st.fl_addr = FLASH_CACHE_INVALID_ADDR) :
    flash_nrf5x_flush need_erase st = (st, []) := by
  simp [flash_nrf5x_flush, h]

/-- C3: starting from the empty cache, N writes inside one internal page
leave the page cached with the buffer equal to the original page contents
overlaid by all writes in submission order, with no flash operation issued;
a subsequent flush with `need_erase`, when the buffer differs from the
device, performs exactly one erase and one program of that page and leaves
the page equal to the overlay.  Moreover a write to a different page while a
page is cached first performs exactly the one flush of the cached page, then
loads the new page into the buffer before overlaying the new bytes. -/
theorem c3_single_pending_page :
    (∀ (env : QspiEnv) (dev : Nat → Nat) (P : Nat) (ops : List WriteOp),
        ops ≠ [] →
        (∀ op ∈ ops, op.dst < CFG_UF2_QSPI_XIP_OFFSET ∧ pageAlign op.dst = P) →
        ∃ st',
          flash_nrf5x_write_list env (initialFlashState dev) ops = some (st', [])
          ∧ st'.fl_addr = P
          ∧ st'.fl_buf = overlayOps (loadPage dev P) ops
          ∧ (pageMatches st' = false →
              (flash_nrf5x_flush true st').2
                  = [FlashEvent.pageErase P, FlashEvent.pageProgram P]
              ∧ (flash_nrf5x_flush true st').1.fl_addr = FLASH_CACHE_INVALID_ADDR
              ∧ ∀ i < FLASH_PAGE_SIZE,
                  (flash_nrf5x_flush true st').1.intFlash (P + i)
                    = overlayOps (loadPage dev P) ops i))
    ∧ (∀ (env : QspiEnv) (st : FlashState) (dst : Nat) (src : Nat → Nat)
        (len : Nat) (ne : Bool),
        dst < CFG_UF2_QSPI_XIP_OFFSET →
        st.fl_addr ≠ FLASH_CACHE_INVALID_ADDR →
        pageAlign dst ≠ st.fl_addr →
        flash_nrf5x_write env st dst src len ne =
          some ({ (flash_nrf5x_flush ne st).1 with
                    fl_addr := pageAlign dst,
                    fl_buf := overlayOne
                      (loadPage (flash_nrf5x_flush ne st).1.intFlash (pageAlign dst))
                      { dst := dst, src := src, len := len, ne := ne } },
                (flash_nrf5x_flush ne st).2)) := by
  constructor
  · intro env dev P ops hne hops
    rcases ops with _ | ⟨op, rest⟩
    · exact absurd rfl hne
    have hdst := (hops op (List.mem_cons_self _ _)).1
    have hpage := (hops op (List.mem_cons_self _ _)).2
    have hPle : pageAlign op.dst ≤ op.dst := Nat.div_mul_le_self _ _
    have hPlt : P < CFG_UF2_QSPI_XIP_OFFSET := by omega
    have hPinv : P ≠ FLASH_CACHE_INVALID_ADDR := by
      simp only [CFG_UF2_QSPI_XIP_OFFSET] at hPlt
      simp only [FLASH_CACHE_INVALID_ADDR]
      omega
    have hwin : ¬ (CFG_UF2_QSPI_XIP_OFFSET ≤ op.dst
        ∧ op.dst < CFG_UF2_QSPI_XIP_OFFSET + CFG_UF2_QSPI_FLASH_SIZE) := by
      intro hc
      omega
    have hstep : flash_nrf5x_write env (initialFlashState dev) op.dst op.src op.len op.ne =
        some
          ({ initialFlashState dev with
              fl_addr := P
              fl_buf := overlayOne (loadPage dev P) op },
            []) := by
      simp only [flash_nrf5x_write, if_neg hwin, hpage]
      rw [if_pos (show P ≠ (initialFlashState dev).fl_addr from hPinv)]
      rw [flush_empty op.ne _ rfl]
      rfl
    have hrest : ∀ o ∈ rest, o.dst < CFG_UF2_QSPI_XIP_OFFSET ∧ pageAlign o.dst =
        ({ initialFlashState dev with
            fl_addr := P
            fl_buf := overlayOne (loadPage dev P) op } : FlashState).fl_addr := by
      intro o ho
      exact ⟨(hops o (List.mem_cons_of_mem _ ho)).1,
             (hops o (List.mem_cons_of_mem _ ho)).2⟩
    have hrun : flash_nrf5x_write_list env (initialFlashState dev) (op :: rest)
        = some
            ({ initialFlashState dev with
                fl_addr := P
                fl_buf := overlayOps (loadPage dev P) (op :: rest) },
              []) := by
      simp only [flash_nrf5x_write_list, hstep, write_list_same_page env rest _ hrest]
      simp [overlayOps]
    refine ⟨_, hrun, rfl, rfl, ?_⟩
    intro hdiff
    have h3 := flush_programs_page
      { initialFlashState dev with
          fl_addr := P
          fl_buf := overlayOps (loadPage dev P) (op :: rest) } true hPinv hdiff
    refine ⟨by simpa using h3.1, h3.2.1, ?_⟩
    intro i hi
    exact h3.2.2 i hi
  · intro env st dst src len ne hdst hinv hpagene
    have hwin : ¬ (CFG_UF2_QSPI_XIP_OFFSET ≤ dst
        ∧ dst < CFG_UF2_QSPI_XIP_OFFSET + CFG_UF2_QSPI_FLASH_SIZE) := by
      intro hc
      omega
    simp only [flash_nrf5x_write, if_neg hwin]
    rw [if_pos hpagene]
    rfl

/-- State with page 0 cached, for the page-crossing part of C3's witness. -/
def c3CrossState : FlashState :=
  { fl_addr := 0
    fl_buf := fun _ => 3
    qspi_erased_sector := 4294967295
    qspi_initialized_local := false
    g_qspi_initialized := false
    intFlash := fun _ => 3 }

/-- Witness for C3: a single 1-byte write at address 0 from the empty cache,
and a write to page 4096 while page 0 is cached. -/
theorem c3_single_pending_page_witness :
    (∃ st',
        flash_nrf5x_write_list envAllGood (initialFlashState fun _ => 0)
            [{ dst := 0, src := fun _ => 1, len := 1, ne := true }] = some (st', [])
        ∧ st'.fl_addr = 0
        ∧ st'.fl_buf = overlayOps (loadPage (fun _ => 0) 0)
            [{ dst := 0, src := fun _ => 1, len := 1, ne := true }]
        ∧ (pageMatches st' = false →
            (flash_nrf5x_flush true st').2
                = [FlashEvent.pageErase 0, FlashEvent.pageProgram 0]
            ∧ (flash_nrf5x_flush true st').1.fl_addr = FLASH_CACHE_INVALID_ADDR
            ∧ ∀ i < FLASH_PAGE_SIZE,
                (flash_nrf5x_flush true st').1.intFlash (0 + i)
                  = overlayOps (loadPage (fun _ => 0) 0)
                      [{ dst := 0, src := fun _ => 1, len := 1, ne := true }] i))
    ∧ flash_nrf5x_write envAllGood c3CrossState 4096 (fun _ => 9) 4 true =
        some ({ (flash_nrf5x_flush true c3CrossState).1 with
                  fl_addr := pageAlign 4096,
                  fl_buf := overlayOne
                    (loadPage (flash_nrf5x_flush true c3CrossState).1.intFlash
                      (pageAlign 4096))
                    { dst := 4096, src := fun _ => 9, len := 4, ne := true } },
              (flash_nrf5x_flush true c3CrossState).2) :=
  ⟨c3_single_pending_page.1 envAllGood (fun _ => 0) 0
      [{ dst := 0, src := fun _ => 1, len := 1, ne := true }]
      (by simp)
      (by intro o ho
          rw [List.mem_singleton] at ho
          subst ho
          exact ⟨by decide, by decide⟩),
   c3_single_pending_page.2 envAllGood c3CrossState 4096 (fun _ => 9) 4 true
      (by decide) (by decide) (by decide)⟩
